import Mathlib

/-!
Verification development for the Aurion repository (frontend of "Project
Maya"): a shallow embedding of the Settings component's localStorage
persistence, the Help component's suggestion search and contact handler,
the translation lookup, and the backend behaviours documented in the
deployment and real-time-search guides (mail gating, provider failover,
Redis cache TTL, bounded concurrent scraping).
-/

namespace Aurion

/-! ### Data model of the Settings component state (Settings.js lines 160-198) -/

/-- Profile fields (`useState({ username: 'You', email: 'you@example.com' })`). -/
structure Profile where
  username : String
  email : String
deriving DecidableEq, Repr

/-- The `about` sub-object (`{ nickname: '', occupation: '' }`). -/
structure AboutInfo where
  nickname : String
  occupation : String
deriving DecidableEq, Repr

/-- Notification toggles (`{ email: true, system: true, sound: false, weekly: false }`). -/
structure NotificationPrefs where
  email : Bool
  system : Bool
  sound : Bool
  weekly : Bool
deriving DecidableEq, Repr

/-- One client-side API key record (`{ id, name, created }`). -/
structure ApiKey where
  id : String
  name : String
  created : String
deriving DecidableEq, Repr

/-- JSON values that occur in the `app_settings` object.  The typed
constructors cover the shapes the Settings component itself writes; `raw`
stands for any other JSON value a prior content of the store may hold. -/
inductive JVal where
  | str (s : String)
  | jbool (b : Bool)
  | jnull
  | jprofile (p : Profile)
  | jabout (a : AboutInfo)
  | jnotifs (n : NotificationPrefs)
  | jkeys (ks : List ApiKey)
  | raw (s : String)
deriving DecidableEq, Repr

/-- The parsed JSON object stored under the `app_settings` key, as a
key-to-value map (JSON.parse/JSON.stringify round-trips are the identity
on these values, so we work with the parsed object directly). -/
def Store : Type := String → Option JVal

/-- `{ ...stored, k: v }` for a single key: override `k`, keep the rest. -/
def setK (st : Store) (k : String) (v : JVal) : Store :=
  fun q => if q = k then some v else st q

/-- The component state of `Settings` relevant to persistence. -/
structure SettingsState where
  profile : Profile
  avatarPreview : Option String
  theme : String
  fontSize : String
  language : String
  customizationEnabled : Bool
  personality : String
  customInstructions : String
  about : AboutInfo
  notifications : NotificationPrefs
  apiKeys : List ApiKey
deriving Repr

/-- JSON encoding of the `avatarPreview` state (a string URL or `null`). -/
def avatarJ : Option String → JVal
  | some u => .str u
  | none => .jnull

/-- Persistence part of `saveChanges(area)` (Settings.js lines 209-226):
read the stored object, spread the requested area's current state fields
over it, and store the result.  Unknown areas hit the fallback branch that
saves all fields. -/
def saveChanges (area : String) (s : SettingsState) (stored : Store) : Store :=
  if area = "preferences" then
    setK (setK (setK stored "theme" (.str s.theme)) "fontSize" (.str s.fontSize))
      "language" (.str s.language)
  else if area = "personalization" then
    setK (setK (setK (setK stored "customizationEnabled" (.jbool s.customizationEnabled))
      "personality" (.str s.personality)) "customInstructions" (.str s.customInstructions))
      "about" (.jabout s.about)
  else if area = "profile" then
    setK (setK stored "profile" (.jprofile s.profile)) "avatarPreview" (avatarJ s.avatarPreview)
  else if area = "notifications" then
    setK stored "notifications" (.jnotifs s.notifications)
  else if area = "integrations" then
    setK stored "apiKeys" (.jkeys s.apiKeys)
  else
    setK (setK (setK (setK (setK (setK (setK (setK (setK (setK stored
      "theme" (.str s.theme)) "fontSize" (.str s.fontSize)) "language" (.str s.language))
      "customizationEnabled" (.jbool s.customizationEnabled)) "personality" (.str s.personality))
      "customInstructions" (.str s.customInstructions)) "about" (.jabout s.about))
      "profile" (.jprofile s.profile)) "notifications" (.jnotifs s.notifications))
      "apiKeys" (.jkeys s.apiKeys)

/-- The keys `saveChanges(area)` writes, branch by branch. -/
def areaFields (area : String) : List String :=
  if area = "preferences" then ["theme", "fontSize", "language"]
  else if area = "personalization" then
    ["customizationEnabled", "personality", "customInstructions", "about"]
  else if area = "profile" then ["profile", "avatarPreview"]
  else if area = "notifications" then ["notifications"]
  else if area = "integrations" then ["apiKeys"]
  else
    ["theme", "fontSize", "language", "customizationEnabled", "personality",
     "customInstructions", "about", "profile", "notifications", "apiKeys"]

/-! ### Persist / load effects of the Settings component (Settings.js lines 237-284) -/

/-- The persisting `useEffect` (lines 272-283): merge the seven
preference/personalization fields over the stored object. -/
def persistPrefs (s : SettingsState) (stored : Store) : Store :=
  setK (setK (setK (setK (setK (setK (setK stored
    "theme" (.str s.theme)) "fontSize" (.str s.fontSize)) "language" (.str s.language))
    "customizationEnabled" (.jbool s.customizationEnabled)) "personality" (.str s.personality))
    "customInstructions" (.str s.customInstructions)) "about" (.jabout s.about)

/-- Restore one string field: `if (saved.x) setX(saved.x)` — JS truthiness
on a string is non-emptiness, every other shape leaves the default. -/
def loadStr (o : Option JVal) (dflt : String) : String :=
  match o with
  | some (.str v) => if v = "" then dflt else v
  | _ => dflt

/-- Restore the boolean field: `if (saved.x !== undefined) setX(saved.x)`. -/
def loadBool (o : Option JVal) (dflt : Bool) : Bool :=
  match o with
  | some (.jbool b) => b
  | _ => dflt

/-- Restore the about object: `if (saved.about) setAbout(saved.about)` —
an object is always truthy. -/
def loadAbout (o : Option JVal) (dflt : AboutInfo) : AboutInfo :=
  match o with
  | some (.jabout a) => a
  | _ => dflt

/-- The mount-time load `useEffect` (lines 240-247): each field is set from
the saved object when its guard passes, otherwise keeps its value in `s0`.
Each branch touches a distinct field, so the sequential `setX` calls are
the simultaneous record update below. -/
def loadSettings (st : Store) (s0 : SettingsState) : SettingsState :=
  { s0 with
    theme := loadStr (st "theme") s0.theme
    fontSize := loadStr (st "fontSize") s0.fontSize
    language := loadStr (st "language") s0.language
    customizationEnabled := loadBool (st "customizationEnabled") s0.customizationEnabled
    personality := loadStr (st "personality") s0.personality
    customInstructions := loadStr (st "customInstructions") s0.customInstructions
    about := loadAbout (st "about") s0.about }

/-- The initial `useState` values of the Settings component. -/
def defaultSettings : SettingsState :=
  { profile := ⟨"You", "you@example.com"⟩
    avatarPreview := none
    theme := "system"
    fontSize := "medium"
    language := "en"
    customizationEnabled := true
    personality := "default"
    customInstructions := ""
    about := ⟨"", ""⟩
    notifications := ⟨true, true, false, false⟩
    apiKeys := [⟨"k_123", "Default key", "2025-02-01"⟩] }

/-- C1: for every settings area (profile, preferences, personalization,
notifications, integrations), `saveChanges(area)` writes that area's
current field values verbatim into the `app_settings` object. -/
theorem saveChanges_writes_area_fields (s : SettingsState) (st : Store) :
    (saveChanges "preferences" s st "theme" = some (.str s.theme) ∧
     saveChanges "preferences" s st "fontSize" = some (.str s.fontSize) ∧
     saveChanges "preferences" s st "language" = some (.str s.language)) ∧
    (saveChanges "personalization" s st "customizationEnabled"
        = some (.jbool s.customizationEnabled) ∧
     saveChanges "personalization" s st "personality" = some (.str s.personality) ∧
     saveChanges "personalization" s st "customInstructions"
        = some (.str s.customInstructions) ∧
     saveChanges "personalization" s st "about" = some (.jabout s.about)) ∧
    (saveChanges "profile" s st "profile" = some (.jprofile s.profile) ∧
     saveChanges "profile" s st "avatarPreview" = some (avatarJ s.avatarPreview)) ∧
    (saveChanges "notifications" s st "notifications" = some (.jnotifs s.notifications)) ∧
    (saveChanges "integrations" s st "apiKeys" = some (.jkeys s.apiKeys)) := by
  refine ⟨⟨?_, ?_, ?_⟩, ⟨?_, ?_, ?_, ?_⟩, ⟨?_, ?_⟩, ?_, ?_⟩ <;>
    simp [saveChanges, setK]

/-- C3: frame property of area-scoped saving — for every area argument and
every prior content of the `app_settings` object, `saveChanges(area)`
leaves every stored key outside that area's fields unchanged. -/
theorem saveChanges_frame (area : String) (s : SettingsState) (st : Store)
    (k : String) (hk : k ∉ areaFields area) :
    saveChanges area s st k = st k := by
  unfold saveChanges
  unfold areaFields at hk
  split_ifs at hk ⊢ <;> simp_all [setK]

/-- Witness for `saveChanges_frame`: saving preferences leaves the stored
`notifications` entry untouched. -/
theorem saveChanges_frame_witness :
    ("notifications" ∉ areaFields "preferences") ∧
    saveChanges "preferences" defaultSettings
      (fun k => if k = "notifications" then some (.jbool true) else none)
      "notifications" = some (.jbool true) := by
  refine ⟨by decide, ?_⟩
  have h := saveChanges_frame "preferences" defaultSettings
    (fun k => if k = "notifications" then some (.jbool true) else none)
    "notifications" (by decide)
  simp only [h]
  simp

/-- C2: round-trip of preferences through local storage — any persisted
values of the seven fields (which are never empty strings for theme,
fontSize, language and personality, since those come from the fixed select
options) are restored exactly when the component remounts over its
defaults. -/
theorem settings_roundtrip (s : SettingsState) (st : Store)
    (ht : s.theme ≠ "") (hf : s.fontSize ≠ "") (hl : s.language ≠ "")
    (hp : s.personality ≠ "") :
    (loadSettings (persistPrefs s st) defaultSettings).theme = s.theme ∧
    (loadSettings (persistPrefs s st) defaultSettings).fontSize = s.fontSize ∧
    (loadSettings (persistPrefs s st) defaultSettings).language = s.language ∧
    (loadSettings (persistPrefs s st) defaultSettings).customizationEnabled
      = s.customizationEnabled ∧
    (loadSettings (persistPrefs s st) defaultSettings).personality = s.personality ∧
    (loadSettings (persistPrefs s st) defaultSettings).customInstructions
      = s.customInstructions ∧
    (loadSettings (persistPrefs s st) defaultSettings).about = s.about := by
  by_cases hc : s.customInstructions = "" <;>
    simp [loadSettings, persistPrefs, setK, loadStr, loadBool, loadAbout,
      defaultSettings, ht, hf, hl, hp, hc]

/-- Witness for `settings_roundtrip` at a concrete state and store. -/
theorem settings_roundtrip_witness :
    (({ defaultSettings with theme := "dark", customInstructions := "be brief" }
        : SettingsState).theme ≠ "") ∧
    (loadSettings
      (persistPrefs { defaultSettings with theme := "dark", customInstructions := "be brief" }
        (fun _ => none)) defaultSettings).theme
      = ({ defaultSettings with theme := "dark", customInstructions := "be brief" }
          : SettingsState).theme := by
  refine ⟨by decide, ?_⟩
  exact (settings_roundtrip
    { defaultSettings with theme := "dark", customInstructions := "be brief" }
    (fun _ => none) (by decide) (by decide) (by decide) (by decide)).1

/-! ### Help component: searchable topics (Help.js lines 12-71, 106-119) -/

/-- Is `q` a prefix of `s` (character lists)? -/
def isPrefixL : List Char → List Char → Bool
  | [], _ => true
  | _ :: _, [] => false
  | a :: as2, b :: bs => a == b && isPrefixL as2 bs

/-- Does `q` occur as a contiguous substring of `s`?  This models the JS
`String.prototype.includes`. -/
def occursIn (q : List Char) : List Char → Bool
  | [] => isPrefixL q []
  | c :: cs => isPrefixL q (c :: cs) || occursIn q cs

/-- Lowercasing character by character, the effect of `toLowerCase()` on
these ASCII topics and queries. -/
def lowerChars (cs : List Char) : List Char := cs.map Char.toLower

/-- The titles and items pushed in order by the `topics` useMemo
(section title first, then its items, for each of the five sections). -/
def rawTopics : List String :=
  ["Getting Started",
   "Create a new chat using the \"New Chat\" button",
   "Type your question or use voice input",
   "Attach files and images to provide context",
   "Use the sidebar to access saved conversations",
   "Account & Profile",
   "How to register and verify your account",
   "Reset your password from the login screen",
   "Update profile details and avatar",
   "Manage connected apps and API keys",
   "Features & Dashboard",
   "Understanding the Dashboard layout and widgets",
   "Using Tasks, Memory, and Suggestions features",
   "Exporting or saving conversation transcripts",
   "Keyboard shortcuts and productivity tips",
   "Troubleshooting",
   "If messages fail to send, check network and retry",
   "Clear local cache or refresh to recover from UI glitches",
   "Check server status or contact support for prolonged outages",
   "Tips & Best Practices",
   "Be specific with prompts to get better responses",
   "Use the edit feature to refine inputs",
   "Manage memory settings to control what is retained"]

/-- `Array.from(new Set(t))`: keep the first occurrence of each string. -/
def dedupFirst : List String → List String
  | [] => []
  | x :: xs => x :: (dedupFirst xs).filter (fun y => y != x)

/-- The flat searchable topic list of the Help page. -/
def helpTopics : List String := dedupFirst rawTopics

/-- The `filtered` useMemo (Help.js lines 115-119): empty query gives no
suggestions; otherwise case-insensitive substring filter, capped at 6. -/
def helpFiltered (query : String) : List String :=
  if query = "" then []
  else
    (helpTopics.filter
      (fun s => occursIn (lowerChars query.toList) (lowerChars s.toList))).take 6

/-- C9: the suggestion list has at most 6 entries, each entry is a help
topic whose lowercased text contains the lowercased query as a substring,
and the empty query yields an empty list. -/
theorem help_suggestions_spec (q : String) :
    (helpFiltered q).length ≤ 6 ∧
    (∀ x ∈ helpFiltered q, x ∈ helpTopics ∧
      occursIn (lowerChars q.toList) (lowerChars x.toList) = true) ∧
    helpFiltered "" = [] := by
  refine ⟨?_, ?_, rfl⟩
  · unfold helpFiltered
    split
    · simp
    · apply List.length_take_le
  · intro x hx
    unfold helpFiltered at hx
    split at hx
    · simp at hx
    · have hx2 := (List.take_sublist 6 _).subset hx
      rw [List.mem_filter] at hx2
      exact ⟨hx2.1, hx2.2⟩

/-- Witness for `help_suggestions_spec`: the query "chat" matches the
first getting-started topic. -/
theorem help_suggestions_witness :
    ("Create a new chat using the \"New Chat\" button" ∈ helpFiltered "chat") ∧
    ("Create a new chat using the \"New Chat\" button" ∈ helpTopics ∧
      occursIn (lowerChars "chat".toList)
        (lowerChars "Create a new chat using the \"New Chat\" button".toList) = true) := by
  refine ⟨by decide, ?_⟩
  exact (help_suggestions_spec "chat").2.1 _ (by decide)

/-! ### Help component: contact form handler (Help.js lines 88-98) -/

/-- Contact form state (`{ name: '', email: '', message: '' }`). -/
structure Contact where
  name : String
  email : String
  message : String
deriving DecidableEq, Repr

/-- Effects a Help-page handler can perform.  `apiCall` is in the
vocabulary so that its absence from the handler's trace is a statement;
`schedule d e` is `setTimeout(() => e, d)`. -/
inductive UIEffect where
  | preventDefault
  | consoleLog (c : Contact)
  | apiCall (url : String)
  | setSubmitted (b : Bool)
  | schedule (delayMs : Nat) (later : UIEffect)
deriving DecidableEq, Repr

/-- The effect trace of `handleContactSubmit`: prevent default, log the
contact object, set `submitted` to true, and schedule resetting it to
false after 4000 ms. -/
def handleContactSubmit (c : Contact) : List UIEffect :=
  [.preventDefault, .consoleLog c, .setSubmitted true,
   .schedule 4000 (.setSubmitted false)]

/-- Does an effect (including inside timers) reach out to the network? -/
def usesNetwork : UIEffect → Bool
  | .preventDefault => false
  | .consoleLog _ => false
  | .apiCall _ => true
  | .setSubmitted _ => false
  | .schedule _ later => usesNetwork later

/-- Does any effect of a trace reach out to the network? -/
def traceUsesNetwork (es : List UIEffect) : Bool := es.any usesNetwork

/-- Value of the `submitted` flag at time `t` ms after one effect ran,
starting from flag value `b`; a scheduled effect only applies once its
delay has elapsed. -/
def effectFlag : UIEffect → Nat → Bool → Bool
  | .preventDefault, _, b => b
  | .consoleLog _, _, b => b
  | .apiCall _, _, b => b
  | .setSubmitted b2, _, _ => b2
  | .schedule d later, t, b => if d ≤ t then effectFlag later (t - d) b else b

/-- Value of the `submitted` flag at time `t` after a whole trace ran. -/
def traceFlag : List UIEffect → Nat → Bool → Bool
  | [], _, b => b
  | e :: rest, t, b => traceFlag rest t (effectFlag e t b)

/-- C4: the Help contact submission is a placeholder — it performs no API
or network call, logs the contact object, and the `submitted` flag reads
true for the first 4000 ms after submission and false from then on. -/
theorem contact_submit_placeholder (c : Contact) (t : Nat) :
    traceUsesNetwork (handleContactSubmit c) = false ∧
    UIEffect.consoleLog c ∈ handleContactSubmit c ∧
    traceFlag (handleContactSubmit c) t false = decide (t < 4000) := by
  refine ⟨rfl, by simp [handleContactSubmit], ?_⟩
  rcases Nat.lt_or_ge t 4000 with h | h
  · simp [handleContactSubmit, traceFlag, effectFlag, Nat.not_le.mpr h, h]
  · simp [handleContactSubmit, traceFlag, effectFlag, h, Nat.not_lt.mpr h]

/-! ### Translation lookup `t` (Settings.js lines 19-140) -/

/-- English translation table of the Settings component. -/
def enTbl : List (String × String) :=
  [
   ("settings", "Settings"),
   ("accountSettings", "Account Settings"),
   ("profile", "Profile"),
   ("uploadPhoto", "Upload photo"),
   ("username", "Username"),
   ("email", "Email"),
   ("cancel", "Cancel"),
   ("save", "Save"),
   ("preferences", "Preferences"),
   ("theme", "Theme"),
   ("fontSize", "Font size"),
   ("language", "Language"),
   ("personalization", "Personalization"),
   ("enableCustomization", "Enable customization"),
   ("assistantPersonality", "Assistant personality"),
   ("customInstructions", "Custom instructions"),
   ("aboutYou", "About you"),
   ("nickname", "Nickname"),
   ("occupation", "Occupation"),
   ("savePersonalization", "Save personalization"),
   ("notifications", "Notifications"),
   ("emailNotifications", "Email notifications"),
   ("systemNotifications", "System notifications"),
   ("soundAlerts", "Sound alerts"),
   ("weeklySummary", "Weekly summary"),
   ("privacy", "Privacy & Security"),
   ("twoFA", "Two-factor authentication"),
   ("activeSessions", "Active sessions"),
   ("requestData", "Request data download"),
   ("clearHistory", "Clear chat history"),
   ("aboutSupport", "About & Support"),
   ("contactSupport", "Contact support"),
   ("terms", "Terms of Service"),
   ("privacyPolicy", "Privacy Policy"),
   ("reportBug", "Report a bug")]

/-- Telugu translation table of the Settings component. -/
def teTbl : List (String × String) :=
  [
   ("settings", "అమరికలు"),
   ("accountSettings", "ఖాతా సెట్టింగ్‌లు"),
   ("profile", "ప్రొఫైల్"),
   ("uploadPhoto", "ఫొటో అప్లోడ్ చేయండి"),
   ("username", "వాడుకరిపేరు"),
   ("email", "ఇమెయిల్"),
   ("cancel", "రద్దు చేయి"),
   ("save", "సేవ్ చేయి"),
   ("preferences", "అభిరుచులు"),
   ("theme", "థీమ్"),
   ("fontSize", "ఫాంట్ పరిమాణం"),
   ("language", "భాష"),
   ("personalization", "వ్యక్తిగతీకరణ"),
   ("enableCustomization", "అనుకూలీకరణ పని చేయనివ్వు"),
   ("assistantPersonality", "సహాయక వ్యక్తిత్వం"),
   ("customInstructions", "అనుకూల సూచనలు"),
   ("aboutYou", "మీ గురించి"),
   ("nickname", "పేరు"),
   ("occupation", "వ్యవసాయం/ఉద్యోగం"),
   ("savePersonalization", "వ్యక్తిగతీకరణ సేవ్ చేయండి"),
   ("notifications", "నోటిఫికేషన్లు"),
   ("emailNotifications", "ఇమెయిల్ నోటిఫికేషన్లు"),
   ("systemNotifications", "సిస్టమ్ నోటిఫికేషన్లు"),
   ("soundAlerts", "ఆడియో అలర్ట్స్"),
   ("weeklySummary", "వారపు సారాంశం"),
   ("privacy", "గోప్యత & భద్రత"),
   ("twoFA", "రెండు-స్టెప్ పరిశీలన"),
   ("activeSessions", "చాలించే సెషన్లు"),
   ("requestData", "డేటా డౌన్లోడ్ అభ్యర్థన"),
   ("clearHistory", "చాట్ హిస్ట్రీ ని క్లియర్ చేయి"),
   ("aboutSupport", "గురించి & మద్దతు"),
   ("contactSupport", "మద్దతును సంప్రదించండి"),
   ("terms", "సేవా షరతులు"),
   ("privacyPolicy", "గోప్యత విధానము"),
   ("reportBug", "బగ్ నివేదించండి")]

/-- Hindi translation table of the Settings component. -/
def hiTbl : List (String × String) :=
  [
   ("settings", "सेटिंग्स"),
   ("accountSettings", "खाता सेटिंग्स"),
   ("profile", "प्रोफ़ाइल"),
   ("uploadPhoto", "फ़ोटो अपलोड करें"),
   ("username", "उपयोगकर्ता नाम"),
   ("email", "ईमेल"),
   ("cancel", "रद्द करें"),
   ("save", "सेव"),
   ("preferences", "प्रेफ़रेंसेज़"),
   ("theme", "थीम"),
   ("fontSize", "फ़ॉन्ट आकार"),
   ("language", "भाषा"),
   ("personalization", "व्यक्तिगतकरण"),
   ("enableCustomization", "अनुकूलन सक्षम करें"),
   ("assistantPersonality", "सहायक व्यक्तित्व"),
   ("customInstructions", "कस्टम निर्देश"),
   ("aboutYou", "आपके बारे में"),
   ("nickname", "उपनाम"),
   ("occupation", "पेशा"),
   ("savePersonalization", "व्यक्तिगतकरण सहेजें"),
   ("notifications", "सूचनाएं"),
   ("emailNotifications", "ईमेल सूचनाएं"),
   ("systemNotifications", "सिस्टम सूचनाएं"),
   ("soundAlerts", "ध्वनि अलर्ट"),
   ("weeklySummary", "साप्ताहिक सारांश"),
   ("privacy", "गोपनीयता और सुरक्षा"),
   ("twoFA", "दो-चरण प्रमाणीकरण"),
   ("activeSessions", "सक्रिय सत्र"),
   ("requestData", "डेटा डाउनलोड का अनुरोध करें"),
   ("clearHistory", "चैट इतिहास साफ़ करें"),
   ("aboutSupport", "बारे में और सहायता"),
   ("contactSupport", "संपर्क सहायता"),
   ("terms", "सेवा की शर्तें"),
   ("privacyPolicy", "गोपनीयता नीति"),
   ("reportBug", "बग रिपोर्ट करें")]

/-- First-match association lookup, modelling `table[key]` on these
objects (`none` models `undefined`). -/
def lookupA (k : String) : List (String × String) → Option String
  | [] => none
  | p :: rest => if k = p.1 then some p.2 else lookupA k rest

/-- `translations[l]`: the three defined language objects, `undefined`
for any other language code. -/
def langTable (l : String) : Option (List (String × String)) :=
  if l = "en" then some enTbl
  else if l = "te" then some teTbl
  else if l = "hi" then some hiTbl
  else none

/-- `x || key` on a possibly-undefined string `x`: JS `||` skips
`undefined` and the empty string. -/
def orKey (o : Option String) (k : String) : String :=
  match o with
  | some v => if v = "" then k else v
  | none => k

/-- The translation function `t(key, lang)` of Settings.js: evaluate
`translations[lang || 'en'][key] || translations.en[key] || key`; when
`translations[lang]` is `undefined` the property access throws and the
`catch` branch returns `translations.en[key] || key`. -/
def tFun (key lang : String) : String :=
  match langTable (if lang = "" then "en" else lang) with
  | some tbl =>
    match lookupA key tbl with
    | some v => if v = "" then orKey (lookupA key enTbl) key else v
    | none => orKey (lookupA key enTbl) key
  | none => orKey (lookupA key enTbl) key

/-- A value returned by `lookupA` is one of the table's values. -/
theorem lookupA_val_mem (k v : String) :
    ∀ (tbl : List (String × String)), lookupA k tbl = some v →
      v ∈ tbl.map Prod.snd := by
  intro tbl
  induction tbl with
  | nil => intro h; simp [lookupA] at h
  | cons p rest ih =>
    intro h
    by_cases hk : k = p.1
    · simp [lookupA, hk] at h
      simp [h]
    · simp [lookupA, hk] at h
      simp [ih h]

/-- No English translation value is the empty string. -/
theorem enTbl_vals : ∀ v ∈ enTbl.map Prod.snd, v ≠ "" := by decide

/-- No Telugu translation value is the empty string. -/
theorem teTbl_vals : ∀ v ∈ teTbl.map Prod.snd, v ≠ "" := by decide

/-- No Hindi translation value is the empty string. -/
theorem hiTbl_vals : ∀ v ∈ hiTbl.map Prod.snd, v ≠ "" := by decide

/-- The `translations.en[key] || key` tail of the chain equals the plain
English-then-key fallback, because no English value is empty. -/
theorem orKey_en (key : String) :
    orKey (lookupA key enTbl) key = (lookupA key enTbl).getD key := by
  unfold orKey
  cases hE : lookupA key enTbl with
  | none => rfl
  | some w =>
    have hw : w ≠ "" := enTbl_vals w (lookupA_val_mem key w enTbl hE)
    simp [hw]

/-- C10: `t(key, lang)` is total and falls back in order — the selected
language translation when defined, otherwise the English translation when
defined, otherwise the key itself; being a total Lean function of the
exception-free model, it never throws. -/
theorem t_total_fallback (key lang : String) :
    tFun key lang =
      (((langTable (if lang = "" then "en" else lang)).bind
          (fun tbl => lookupA key tbl)).or (lookupA key enTbl)).getD key := by
  unfold tFun
  generalize (if lang = "" then "en" else lang) = l
  unfold langTable
  split_ifs
  · cases hK : lookupA key enTbl with
    | some v =>
      have hv : v ≠ "" := enTbl_vals v (lookupA_val_mem key v enTbl hK)
      simp [hK, hv]
    | none => simp [hK, orKey_en, orKey]
  · cases hK : lookupA key teTbl with
    | some v =>
      have hv : v ≠ "" := teTbl_vals v (lookupA_val_mem key v teTbl hK)
      simp [hK, hv]
    | none => simpa [hK] using orKey_en key
  · cases hK : lookupA key hiTbl with
    | some v =>
      have hv : v ≠ "" := hiTbl_vals v (lookupA_val_mem key v hiTbl hK)
      simp [hK, hv]
    | none => simpa [hK] using orKey_en key
  · simpa using orKey_en key

/-! ### Backend email gating (deployment guide, mail configuration notes) -/

/-- Modelled from the spec: the backend source is not in this repository;
per the deployment guide, the mail configuration is the three environment
variables MAIL_USERNAME, MAIL_PASSWORD, MAIL_FROM (the last named
`sender` here since `from` is reserved), each possibly unset. -/
structure MailConfig where
  username : Option String
  password : Option String
  sender : Option String
deriving DecidableEq, Repr

/-- Modelled from the spec: the email feature is enabled exactly when all
three mail variables are set ("if not set, email endpoints will be
disabled"). -/
def emailEnabled (c : MailConfig) : Bool :=
  c.username.isSome && c.password.isSome && c.sender.isSome

/-- Modelled from the spec: the HTTP status of the `/test-email` endpoint
("Without them, /test-email will return 503"); with the feature enabled
the endpoint proceeds and does not return 503. -/
def testEmailStatus (c : MailConfig) : Nat :=
  if emailEnabled c then 200 else 503

/-- C5: with the mail configuration absent the email feature is disabled
and `/test-email` returns 503; with it present the endpoint does not
return 503. -/
theorem testEmail_gating (c : MailConfig) :
    (emailEnabled c = false → testEmailStatus c = 503) ∧
    (emailEnabled c = true → testEmailStatus c ≠ 503) := by
  constructor <;> intro h <;> simp [testEmailStatus, h]

/-- Witness for `testEmail_gating`: an empty mail configuration yields
status 503, a full one does not. -/
theorem testEmail_gating_witness :
    testEmailStatus ⟨none, none, none⟩ = 503 ∧
    testEmailStatus ⟨some "u", some "p", some "f"⟩ ≠ 503 := by
  exact ⟨(testEmail_gating ⟨none, none, none⟩).1 (by decide),
         (testEmail_gating ⟨some "u", some "p", some "f"⟩).2 (by decide)⟩

/-! ### Backend search failover (search guide: SerpAPI first, Google fallback) -/

/-- The two search providers of the documented `smart_search`. -/
inductive Provider where
  | serpapi
  | googleCSE
deriving DecidableEq, Repr

/-- Modelled from the spec: the environment `smart_search` runs in — which
providers are configured, and the outcome of an attempt against each
(`none` means the attempt fails). -/
structure SearchEnv where
  serpConfigured : Bool
  serpOutcome : Option String
  googleConfigured : Bool
  googleOutcome : Option String
deriving DecidableEq, Repr

/-- Modelled from the spec: `smart_search` "Searches using SerpAPI first,
falls back to Google Custom Search if needed".  Returns the ordered list
of providers attempted and the final result. -/
def smartSearchTrace (e : SearchEnv) : List Provider × Option String :=
  if e.serpConfigured then
    match e.serpOutcome with
    | some r => ([.serpapi], some r)
    | none =>
      if e.googleConfigured then ([.serpapi, .googleCSE], e.googleOutcome)
      else ([.serpapi], none)
  else
    if e.googleConfigured then ([.googleCSE], e.googleOutcome)
    else ([], none)

/-- C6: SerpAPI is queried first and Google Custom Search only as a
fallback — whenever SerpAPI succeeds Google is not attempted, Google is
attempted only if SerpAPI is unavailable or its attempt failed, and when
SerpAPI is available it is always the first attempt. -/
theorem smartSearch_failover (e : SearchEnv) :
    (∀ r : String, e.serpOutcome = some r → e.serpConfigured = true →
      (smartSearchTrace e).1 = [.serpapi]) ∧
    (Provider.googleCSE ∈ (smartSearchTrace e).1 →
      e.serpConfigured = false ∨ e.serpOutcome = none) ∧
    (e.serpConfigured = true →
      (smartSearchTrace e).1.head? = some .serpapi) := by
  obtain ⟨sc, so, gc, go⟩ := e
  refine ⟨?_, ?_, ?_⟩ <;>
    cases sc <;> cases so <;> cases gc <;>
      simp [smartSearchTrace]

/-- Witness for `smartSearch_failover`: with SerpAPI configured but
failing and Google configured, Google is reached only as fallback. -/
theorem smartSearch_failover_witness :
    (⟨true, none, true, some "g"⟩ : SearchEnv).serpConfigured = false ∨
    (⟨true, none, true, some "g"⟩ : SearchEnv).serpOutcome = none := by
  exact (smartSearch_failover ⟨true, none, true, some "g"⟩).2.1 (by decide)

/-! ### Backend Redis search cache (search guide: key, 1-hour TTL) -/

/-- Modelled from the spec: the Redis cache as a map from key to the
pair (absolute expiry time in seconds, cached JSON blob). -/
def Cache : Type := String → Option (Nat × String)

/-- Modelled from the spec: the cache key of a query,
`"search:query:" + sha256(query.lower()).hexdigest()[:16]`; the hash
function is an abstract parameter `h`. -/
def cacheKeyOf (h : String → String) (q : String) : String :=
  "search:query:" ++ (h (String.mk (lowerChars q.toList))).take 16

/-- Modelled from the spec: a Redis SETEX write with a 3600-second TTL. -/
def cacheSet (c : Cache) (now : Nat) (k v : String) : Cache :=
  fun q => if q = k then some (now + 3600, v) else c q

/-- Modelled from the spec: a Redis read at time `now` — a value is
returned only before its expiry time. -/
def cacheGet (c : Cache) (now : Nat) (k : String) : Option String :=
  match c k with
  | some (exp, v) => if now < exp then some v else none
  | none => none

/-- Modelled from the spec: the cached search wrapper — serve a cache hit,
otherwise produce the fresh result and store it under the query's key. -/
def searchCached (h : String → String) (c : Cache) (now : Nat)
    (q fresh : String) : String × Cache :=
  match cacheGet c now (cacheKeyOf h q) with
  | some v => (v, c)
  | none => (fresh, cacheSet c now (cacheKeyOf h q) fresh)

/-- C7: a cached result is stored under the hash-derived key of its query
and expires exactly 3600 seconds after being written — readable before
`now + 3600`, gone from then on — and within that hour a repeated
identical query is served from the cache, leaving it unchanged. -/
theorem searchCache_ttl (h : String → String) (c : Cache) (now t : Nat)
    (q fresh fresh2 : String) :
    cacheKeyOf h q = "search:query:" ++ (h (String.mk (lowerChars q.toList))).take 16 ∧
    (t < now + 3600 →
      cacheGet (cacheSet c now (cacheKeyOf h q) fresh) t (cacheKeyOf h q) = some fresh) ∧
    (now + 3600 ≤ t →
      cacheGet (cacheSet c now (cacheKeyOf h q) fresh) t (cacheKeyOf h q) = none) ∧
    (t < now + 3600 →
      searchCached h (cacheSet c now (cacheKeyOf h q) fresh) t q fresh2
        = (fresh, cacheSet c now (cacheKeyOf h q) fresh)) := by
  refine ⟨rfl, ?_, ?_, ?_⟩
  · intro hlt
    simp [cacheGet, cacheSet, hlt]
  · intro hge
    simp [cacheGet, cacheSet, Nat.not_lt.mpr hge]
  · intro hlt
    simp [searchCached, cacheGet, cacheSet, hlt]

/-- Witness for `searchCache_ttl` with the identity hash at time 10 of an
entry written at time 0. -/
theorem searchCache_ttl_witness :
    cacheGet (cacheSet (fun _ => none) 0 (cacheKeyOf id "Query") "blob") 10
      (cacheKeyOf id "Query") = some "blob" ∧
    searchCached id (cacheSet (fun _ => none) 0 (cacheKeyOf id "Query") "blob") 10
      "Query" "other"
      = ("blob", cacheSet (fun _ => none) 0 (cacheKeyOf id "Query") "blob") := by
  exact ⟨(searchCache_ttl id (fun _ => none) 0 10 "Query" "blob" "other").2.1 (by decide),
         (searchCache_ttl id (fun _ => none) 0 10 "Query" "blob" "other").2.2.2 (by decide)⟩

/-! ### Backend concurrent article scraping (search guide: 3 in parallel, 8 s timeout) -/

/-- Modelled from the spec: the state of the article scraper — articles
waiting to be scraped, and the running scrapes as pairs of article id and
elapsed seconds. -/
structure Sched where
  waiting : List Nat
  running : List (Nat × Nat)
deriving DecidableEq, Repr

/-- Modelled from the spec: one step of a semaphore-bounded scraper.  A
waiting article may start only while fewer than 3 scrapes run; a running
scrape may work on only below the 8-second timeout; any scrape may finish
(completion, failure, or abandonment at the timeout). -/
inductive SchedStep : Sched → Sched → Prop where
  | start (id : Nat) (rest : List Nat) (r : List (Nat × Nat))
      (hr : r.length < 3) :
      SchedStep ⟨id :: rest, r⟩ ⟨rest, (id, 0) :: r⟩
  | work (w : List Nat) (pre post : List (Nat × Nat)) (id e : Nat)
      (he : e < 8) :
      SchedStep ⟨w, pre ++ (id, e) :: post⟩ ⟨w, pre ++ (id, e + 1) :: post⟩
  | finish (w : List Nat) (pre post : List (Nat × Nat)) (id e : Nat) :
      SchedStep ⟨w, pre ++ (id, e) :: post⟩ ⟨w, pre ++ post⟩

/-- States the scraper can reach from an initial batch of article ids. -/
inductive SchedReach : Sched → Prop where
  | init (ids : List Nat) : SchedReach ⟨ids, []⟩
  | step (s s2 : Sched) (h1 : SchedReach s) (h2 : SchedStep s s2) : SchedReach s2

/-- C8: in every reachable scraper state at most 3 articles are being
scraped concurrently, and no individual scrape ever runs past the
8-second timeout (at 8 seconds it can only be abandoned). -/
theorem scraper_bounded (s : Sched) (h : SchedReach s) :
    s.running.length ≤ 3 ∧ ∀ p ∈ s.running, p.2 ≤ 8 := by
  induction h with
  | init ids => simp
  | step s s2 h1 h2 ih =>
    cases h2 with
    | start id rest r hr =>
      refine ⟨by simp; omega, ?_⟩
      intro p hp
      rcases List.mem_cons.mp hp with hp1 | hp2
      · simp [hp1]
      · exact ih.2 p hp2
    | work w pre post id e he =>
      refine ⟨by simpa using ih.1, ?_⟩
      intro p hp
      rcases List.mem_append.mp hp with hp1 | hp2
      · exact ih.2 p (List.mem_append.mpr (Or.inl hp1))
      · rcases List.mem_cons.mp hp2 with hp3 | hp4
        · simp [hp3]; omega
        · exact ih.2 p (List.mem_append.mpr (Or.inr (List.mem_cons.mpr (Or.inr hp4))))
    | finish w pre post id e =>
      constructor
      · have := ih.1
        simp at this ⊢
        omega
      · intro p hp
        rcases List.mem_append.mp hp with hp1 | hp2
        · exact ih.2 p (List.mem_append.mpr (Or.inl hp1))
        · exact ih.2 p (List.mem_append.mpr (Or.inr (List.mem_cons.mpr (Or.inr hp2))))

/-- Witness for `scraper_bounded`: the state after starting the first of
two articles is reachable and satisfies both bounds. -/
theorem scraper_bounded_witness :
    (Sched.mk [2] [(1, 0)]).running.length ≤ 3 ∧
    ∀ p ∈ (Sched.mk [2] [(1, 0)]).running, p.2 ≤ 8 := by
  exact scraper_bounded ⟨[2], [(1, 0)]⟩
    (SchedReach.step ⟨[1, 2], []⟩ ⟨[2], [(1, 0)]⟩ (SchedReach.init [1, 2])
      (SchedStep.start 1 [2] [] (by simp)))

end Aurion
